import Mathlib

/-!
Verification development for the miel honeypot core (b0cal/miel).

This file gives a shallow embedding, in Lean 4, of the parts of the Rust
source that carry the session-lifecycle and data-capture requirements:

* data_capture/recorder.rs      (StreamRecorder::finalize_capture)
* data_capture/tcp_capture.rs   (TcpCapture::proxy_and_record)
* data_capture/stdio_capture.rs (StdioCapture::parse_activity_log_line)
* session_management/session_manager.rs
  (handle_session, end_session, cleanup_expired_sessions, create_session)
* storage/database_storage.rs and storage/file_storage.rs
  (cleanup_old_sessions, get_session_data, save_interaction)
* network/service_detector.rs   (ServiceDetector::new, detect_service)

Modelling conventions:

* Machine integers become Nat (with an explicit reduction modulo 2^64 where
  the source casts to u64); byte buffers become List Nat; UTF-8 strings that
  the source manipulates character-wise become List Char, and the bytes the
  source stores are obtained through an explicit UTF-8 encoder.
* Uuid values become Nat tokens; chrono timestamps become Int seconds, and
  wall-clock reads (Utc::now) are passed in explicitly.
* Fallible operations return Except; the effects of the surrounding system
  (container creation, proxy outcome, storage success) are passed in as an
  explicit environment, and persistence calls are recorded in an event list
  so that ordering properties about the persistence log can be stated.
* Asynchronous interleavings are not modelled; each Rust async fn is embedded
  as the sequential function its awaits describe, and the two proxy
  directions are embedded as independent folds over their i/o event traces.
-/

/-! ## Shared data model (data_capture/types.rs, storage/types.rs) -/

/-- Direction of TCP flow for captured bytes (enum Direction). -/
inductive Direction
  | ClientToContainer
  | ContainerToClient
deriving DecidableEq, Repr

/-- Logical stdio stream identifiers (enum StdioStream). -/
inductive StdioStream
  | Stdin
  | Stdout
  | Stderr
deriving DecidableEq, Repr

/-- Storage backend errors (error_handling/types.rs, StorageError). -/
inductive StorageError
  | ConnectionFailed
  | WriteFailed
  | ReadFailed
deriving DecidableEq, Repr

/-- Capture errors (error_handling/types.rs, CaptureError); the io::Error
payloads of the first two variants are dropped. -/
inductive CaptureError
  | TcpStreamError
  | StdioError
  | StorageError (e : StorageError)
deriving DecidableEq, Repr

/-- Aggregated capture artifacts persisted after a session completes
(struct CaptureArtifacts, storage/types.rs variant: stdio streams are raw
byte vectors).  Timestamp series keep direction/stream and chunk size; the
wall-clock component carries no information the claims need and is dropped. -/
structure CaptureArtifacts where
  session_id : Nat
  tcp_client_to_container : List Nat
  tcp_container_to_client : List Nat
  stdio_stdin : List Nat
  stdio_stdout : List Nat
  stdio_stderr : List Nat
  tcp_timestamps : List (Direction × Nat)
  stdio_timestamps : List (StdioStream × Nat)
  total_bytes : Nat
  duration : Int
deriving DecidableEq, Repr

/-! ## TCP and stdio capture state (tcp_capture.rs, stdio_capture.rs) -/

/-- Buffers held by TcpCapture: both directions plus the timestamp series. -/
structure TcpCapture where
  client_to_container : List Nat
  container_to_client : List Nat
  timestamps : List (Direction × Nat)
deriving DecidableEq, Repr

/-- Fresh TcpCapture state (TcpCapture::new). -/
def TcpCapture.new : TcpCapture :=
  { client_to_container := [], container_to_client := [], timestamps := [] }

/-- Buffers held by StdioCapture: the three stream buffers plus timestamps. -/
structure StdioCapture where
  stdin_data : List Nat
  stdout_data : List Nat
  stderr_data : List Nat
  timestamps : List (StdioStream × Nat)
deriving DecidableEq, Repr

/-- Fresh StdioCapture state (StdioCapture::new). -/
def StdioCapture.new : StdioCapture :=
  { stdin_data := [], stdout_data := [], stderr_data := [], timestamps := [] }

/-- StdioCapture::capture_pty: one best-effort read from the PTY; a non-empty
chunk is appended to stdout_data with one timestamp entry, an empty read
(EOF or WouldBlock) changes nothing. -/
def StdioCapture.capture_pty (cap : StdioCapture) (chunk : List Nat) : StdioCapture :=
  if chunk.isEmpty then cap
  else
    { cap with
      stdout_data := cap.stdout_data ++ chunk
      timestamps := cap.timestamps ++ [(StdioStream.Stdout, chunk.length)] }

/-! ## Stream recorder (recorder.rs) -/

/-- Per-session capture state owned by StreamRecorder.  The storage handle is
not part of the state; persistence is passed in at finalize_capture. -/
structure StreamRecorder where
  session_id : Nat
  tcp_capture : TcpCapture
  stdio_capture : Option StdioCapture
  start_time : Int
deriving DecidableEq, Repr

/-- StreamRecorder::new. -/
def StreamRecorder.new (session_id : Nat) (now : Int) : StreamRecorder :=
  { session_id := session_id
    tcp_capture := TcpCapture.new
    stdio_capture := none
    start_time := now }

/-- USIZE_MOD: the modulus of 64-bit usize/u64 arithmetic. -/
def USIZE_MOD : Nat := 2 ^ 64

/-- The artifacts record built inside StreamRecorder::finalize_capture
(recorder.rs lines 162-197): snapshot of the tcp buffers, stdio buffers (or
empty vectors if no stdio capture ran), total_bytes as the u64 cast of the
sum of the five buffer lengths, and duration now - start_time. -/
def StreamRecorder.build_artifacts (r : StreamRecorder) (now : Int) : CaptureArtifacts :=
  let c2s := r.tcp_capture.client_to_container
  let s2c := r.tcp_capture.container_to_client
  let tcp_ts := r.tcp_capture.timestamps
  let stdio :=
    match r.stdio_capture with
    | some st => (st.stdin_data, st.stdout_data, st.stderr_data, st.timestamps)
    | none => ([], [], [], [])
  { session_id := r.session_id
    tcp_client_to_container := c2s
    tcp_container_to_client := s2c
    stdio_stdin := stdio.1
    stdio_stdout := stdio.2.1
    stdio_stderr := stdio.2.2.1
    tcp_timestamps := tcp_ts
    stdio_timestamps := stdio.2.2.2
    total_bytes :=
      (c2s.length + s2c.length + stdio.1.length + stdio.2.1.length
        + stdio.2.2.1.length) % USIZE_MOD
    duration := now - r.start_time }

/-- StreamRecorder::finalize_capture: build the artifacts, persist them
through the injected storage backend, and return them; a storage failure is
wrapped in CaptureError::StorageError. -/
def StreamRecorder.finalize_capture (r : StreamRecorder)
    (save : CaptureArtifacts → Except StorageError Unit) (now : Int) :
    Except CaptureError CaptureArtifacts :=
  let artifacts := r.build_artifacts now
  match save artifacts with
  | Except.ok _ => Except.ok artifacts
  | Except.error e => Except.error (CaptureError.StorageError e)

/-- Sum of the five byte-stream lengths snapshotted into an artifacts record. -/
def CaptureArtifacts.stream_length_sum (a : CaptureArtifacts) : Nat :=
  a.tcp_client_to_container.length + a.tcp_container_to_client.length
    + a.stdio_stdin.length + a.stdio_stdout.length + a.stdio_stderr.length

/-- C1: for every session, the CaptureArtifacts record returned by
StreamRecorder::finalize_capture satisfies total_bytes = the sum of the
lengths of the five byte buffers snapshotted into that same record (the u64
cast in the source makes this exact whenever the sum fits in 64 bits, which
is every state realisable in memory). -/
theorem c1_finalize_total_bytes (r : StreamRecorder)
    (save : CaptureArtifacts → Except StorageError Unit) (now : Int)
    (a : CaptureArtifacts)
    (hok : r.finalize_capture save now = Except.ok a)
    (hfit : a.stream_length_sum < USIZE_MOD) :
    a.total_bytes = a.tcp_client_to_container.length
      + a.tcp_container_to_client.length + a.stdio_stdin.length
      + a.stdio_stdout.length + a.stdio_stderr.length := by
  have ha : a = r.build_artifacts now := by
    unfold StreamRecorder.finalize_capture at hok
    cases hsave : save (r.build_artifacts now) with
    | ok u => simp [hsave] at hok; exact hok.symm
    | error e => simp [hsave] at hok
  subst ha
  rcases r with ⟨sid, tcp, stdio, t0⟩
  cases stdio with
  | none =>
      simpa [StreamRecorder.build_artifacts, CaptureArtifacts.stream_length_sum]
        using Nat.mod_eq_of_lt
          (by simpa [StreamRecorder.build_artifacts,
            CaptureArtifacts.stream_length_sum] using hfit)
  | some st =>
      simpa [StreamRecorder.build_artifacts, CaptureArtifacts.stream_length_sum]
        using Nat.mod_eq_of_lt
          (by simpa [StreamRecorder.build_artifacts,
            CaptureArtifacts.stream_length_sum] using hfit)

/-- Sample recorder state used to witness c1_finalize_total_bytes. -/
def c1_sample_recorder : StreamRecorder where
  session_id := 7
  tcp_capture :=
    { client_to_container := [71, 69, 84]
      container_to_client := [79, 75]
      timestamps := [(Direction.ClientToContainer, 3),
        (Direction.ContainerToClient, 2)] }
  stdio_capture := some
    { stdin_data := [108, 115, 10]
      stdout_data := [116, 111, 116, 97, 108, 10]
      stderr_data := []
      timestamps := [(StdioStream.Stdin, 3), (StdioStream.Stdout, 6)] }
  start_time := 100

/-- The artifacts record c1_sample_recorder finalizes to at time 105. -/
def c1_sample_artifacts : CaptureArtifacts where
  session_id := 7
  tcp_client_to_container := [71, 69, 84]
  tcp_container_to_client := [79, 75]
  stdio_stdin := [108, 115, 10]
  stdio_stdout := [116, 111, 116, 97, 108, 10]
  stdio_stderr := []
  tcp_timestamps := [(Direction.ClientToContainer, 3),
    (Direction.ContainerToClient, 2)]
  stdio_timestamps := [(StdioStream.Stdin, 3), (StdioStream.Stdout, 6)]
  total_bytes := 14
  duration := 5

/-- Witness for c1_finalize_total_bytes at a concrete recorder state. -/
theorem c1_finalize_total_bytes_witness :
    c1_sample_recorder.finalize_capture (fun _ => Except.ok ()) 105 =
      Except.ok c1_sample_artifacts ∧
    c1_sample_artifacts.total_bytes =
      c1_sample_artifacts.tcp_client_to_container.length
        + c1_sample_artifacts.tcp_container_to_client.length
        + c1_sample_artifacts.stdio_stdin.length
        + c1_sample_artifacts.stdio_stdout.length
        + c1_sample_artifacts.stdio_stderr.length := by
  refine ⟨by rfl, ?_⟩
  exact c1_finalize_total_bytes c1_sample_recorder (fun _ => Except.ok ()) 105
    c1_sample_artifacts (by rfl) (by decide)

/-! ## Session management data model (session_management/, network/types.rs) -/

/-- Decidable equality for Except results, used to evaluate run outcomes. -/
instance {ε α : Type} [DecidableEq ε] [DecidableEq α] : DecidableEq (Except ε α) :=
  fun a b =>
    match a, b with
    | Except.ok x, Except.ok y => decidable_of_iff (x = y) (by simp)
    | Except.error e, Except.error f => decidable_of_iff (e = f) (by simp)
    | Except.ok _, Except.error _ => isFalse (by simp)
    | Except.error _, Except.ok _ => isFalse (by simp)

/-- Session lifecycle status (session_management.rs, enum SessionStatus). -/
inductive SessionStatus
  | Pending
  | Active
  | Completed
  | Error
deriving DecidableEq, Repr

/-- Session errors (error_handling/types.rs, SessionError); payloads of the
container and storage variants are dropped. -/
inductive SessionError
  | CreationFailed
  | ContainerError
  | StorageError
  | CaptureError (e : CaptureError)
  | NotFound
  | SessionLimitReached
deriving DecidableEq, Repr

/-- A captured service session (session_management/session.rs).  The client
socket address is a pair of ip and port tokens. -/
structure Session where
  id : Nat
  service_name : String
  client_addr : Nat × Nat
  start_time : Int
  end_time : Option Int
  container_id : Option String
  bytes_transferred : Nat
  status : SessionStatus
deriving DecidableEq, Repr

/-- The parts of a ContainerHandle the session manager touches: the id, the
preconnected TCP socket (consumed by take()), and the optional PTY handle
(container_management/container_handle.rs). -/
structure ContainerHandle where
  id : String
  tcp_socket : Option Nat
  pty_master : Option Unit
deriving DecidableEq, Repr

/-- An active session entry (session_management/active_session.rs). -/
structure ActiveSession where
  session : Session
  container_handle : Option ContainerHandle
  stream_recorder : StreamRecorder
deriving DecidableEq, Repr

/-- A session request produced by the listener (network/types.rs). -/
structure SessionRequest where
  stream : Option Nat
  service_name : String
  client_addr : Nat × Nat
  timestamp : Int
deriving DecidableEq, Repr

/-- Service configuration (configuration/types.rs); the obfuscation block and
the protocol tag play no role in the embedded operations. -/
structure ServiceConfig where
  name : String
  port : Nat
  container_image : String
  enabled : Bool
  header_patterns : List String
  banner_response : Option String
deriving DecidableEq, Repr

/-- Persistence and resource events, recorded so that properties of the
persistence log (which calls happened, in which order) can be stated.
save_session / save_capture_artifacts / save_interaction events are emitted
exactly when the corresponding Storage call succeeds; create_container and
cleanup_container record sandbox activity. -/
inductive Event
  | save_session (id : Nat)
  | save_capture_artifacts (id : Nat)
  | save_interaction (id : Nat)
  | create_container (cid : String)
  | cleanup_container (cid : String)
deriving DecidableEq, Repr

/-- Environment supplying the outcomes of the effectful calls a session
manager step performs: the wall clock, the generated Uuid, the container
manager's create result, the proxy outcome and the data it captured, the PTY
snapshot chunk, and whether storage and container cleanup succeed. -/
structure Env where
  now : Int
  fresh_id : Nat
  create_container : Except Unit ContainerHandle
  proxy_ok : Bool
  proxy_c2s : List Nat
  proxy_s2c : List Nat
  proxy_ts : List (Direction × Nat)
  pty_chunk : List Nat
  save_artifacts_ok : Bool
  cleanup_ok : Bool
deriving Repr

/-- StreamRecorder::start_tcp_proxy: on a successful proxy run the captured
data is appended to the recorder's tcp buffers; the Bool is the run outcome. -/
def StreamRecorder.start_tcp_proxy (r : StreamRecorder) (env : Env) :
    StreamRecorder × Bool :=
  if env.proxy_ok then
    ({ r with tcp_capture :=
        { client_to_container := r.tcp_capture.client_to_container ++ env.proxy_c2s
          container_to_client := r.tcp_capture.container_to_client ++ env.proxy_s2c
          timestamps := r.tcp_capture.timestamps ++ env.proxy_ts } }, true)
  else (r, false)

/-- StreamRecorder::start_stdio_capture: get_or_insert the StdioCapture and
take one PTY snapshot. -/
def StreamRecorder.start_stdio_capture (r : StreamRecorder) (chunk : List Nat) :
    StreamRecorder :=
  let cap := r.stdio_capture.getD (StdioCapture.new)
  { r with stdio_capture := some (cap.capture_pty chunk) }

/-- The session manager state (session_manager.rs lines 23-44); the active
session HashMap becomes an association list with unique keys. -/
structure SessionManager where
  active_sessions : List (Nat × ActiveSession)
  max_sessions : Nat
  session_timeout : Int
deriving DecidableEq, Repr

/-- SessionManager::new: empty map, given cap, 170000 s timeout. -/
def SessionManager.new (max_sessions : Nat) : SessionManager :=
  { active_sessions := [], max_sessions := max_sessions, session_timeout := 170000 }

/-- Replace the value stored under a key of the association list. -/
def assoc_update (k : Nat) (v : ActiveSession) :
    List (Nat × ActiveSession) → List (Nat × ActiveSession)
  | [] => []
  | (k', v') :: rest =>
    if k' = k then (k, v) :: rest else (k', v') :: assoc_update k v rest

/-- HashMap::insert semantics: replace an existing binding, else append. -/
def assoc_insert (k : Nat) (v : ActiveSession) (l : List (Nat × ActiveSession)) :
    List (Nat × ActiveSession) :=
  if l.any (fun p => p.1 == k) then assoc_update k v l else l ++ [(k, v)]

/-- HashMap::remove semantics: the removed value and the remaining list. -/
def assoc_remove (k : Nat) :
    List (Nat × ActiveSession) →
      Option (ActiveSession × List (Nat × ActiveSession))
  | [] => none
  | (k', v') :: rest =>
    if k' = k then some (v', rest)
    else
      match assoc_remove k rest with
      | some (v, rest') => some (v, (k', v') :: rest')
      | none => none

/-- Key lookup on the association list. -/
def assoc_lookup (k : Nat) (l : List (Nat × ActiveSession)) : Option ActiveSession :=
  (l.find? (fun p => p.1 == k)).map (fun p => p.2)

/-- SessionManager::find_session (lines 130-139): the first active session
whose client ip and port both equal the request's. -/
def SessionManager.find_session (m : SessionManager) (request : SessionRequest) :
    Option Nat :=
  (m.active_sessions.find? (fun p =>
    request.client_addr.1 == p.2.session.client_addr.1 &&
    request.client_addr.2 == p.2.session.client_addr.2)).map (fun p => p.1)

/-- Result of one session manager operation: the new state, the events the
operation performed, the finalized Session record dropped at the end of
end_session (observable just before the Rust value is discarded), and the
returned Result. -/
structure StepResult where
  state : SessionManager
  events : List Event
  dropped : Option Session
  result : Except SessionError Unit
deriving Repr

/-- One PTY-snapshot attempt as performed at the end of both handle_session
paths: only when the container handle carries a PTY. -/
def ActiveSession.try_stdio_capture (a : ActiveSession) (chunk : List Nat) :
    ActiveSession :=
  match a.container_handle with
  | some h =>
    if h.pty_master.isSome then
      { a with stream_recorder := a.stream_recorder.start_stdio_capture chunk }
    else a
  | none => a

/-- SessionManager::handle_session (session_manager.rs lines 46-128).

Merge path: an active session with the same client address takes over the
request; its container socket is consumed and the proxy runs on the existing
recorder.  New path: create_session checks the cap (line 290: reject when
active count equals max_sessions, before any container is created), creates a
container, builds an Active session and a fresh recorder, runs the proxy and
inserts the entry.  Note that no Storage call occurs on any path. -/
def SessionManager.handle_session (m : SessionManager) (env : Env)
    (request : SessionRequest) (_service_config : ServiceConfig) : StepResult :=
  match request.stream with
  | none => ⟨m, [], none, Except.error SessionError.CreationFailed⟩
  | some _request_stream =>
    match m.find_session request with
    | some key =>
      match assoc_lookup key m.active_sessions with
      | none => ⟨m, [], none, Except.error SessionError.CreationFailed⟩
      | some active_session =>
        match active_session.container_handle with
        | none => ⟨m, [], none, Except.error SessionError.CreationFailed⟩
        | some handle =>
          match handle.tcp_socket with
          | none => ⟨m, [], none, Except.error SessionError.CreationFailed⟩
          | some _sock =>
            let as1 := { active_session with
              container_handle := some { handle with tcp_socket := none } }
            let pr := as1.stream_recorder.start_tcp_proxy env
            if pr.2 then
              let as2 := { as1 with stream_recorder := pr.1 }
              let as3 := as2.try_stdio_capture env.pty_chunk
              ⟨{ m with active_sessions := assoc_update key as3 m.active_sessions },
                [], none, Except.ok ()⟩
            else
              ⟨{ m with active_sessions := assoc_update key as1 m.active_sessions },
                [], none, Except.error SessionError.CreationFailed⟩
    | none =>
      if m.max_sessions = m.active_sessions.length then
        ⟨m, [], none, Except.error SessionError.CreationFailed⟩
      else
        match env.create_container with
        | Except.error _ => ⟨m, [], none, Except.error SessionError.CreationFailed⟩
        | Except.ok container_handle =>
          let ev0 := [Event.create_container container_handle.id]
          let session : Session :=
            { id := env.fresh_id
              service_name := request.service_name
              client_addr := request.client_addr
              start_time := request.timestamp
              end_time := none
              container_id := some container_handle.id
              bytes_transferred := 0
              status := SessionStatus.Active }
          let active_session : ActiveSession :=
            { session := session
              container_handle := some container_handle
              stream_recorder := StreamRecorder.new session.id env.now }
          match container_handle.tcp_socket with
          | none => ⟨m, ev0, none, Except.error SessionError.CreationFailed⟩
          | some _sock =>
            let as1 := { active_session with
              container_handle := some { container_handle with tcp_socket := none } }
            let pr := as1.stream_recorder.start_tcp_proxy env
            if pr.2 then
              let as2 := { as1 with stream_recorder := pr.1 }
              let as3 := as2.try_stdio_capture env.pty_chunk
              ⟨{ m with active_sessions := assoc_insert session.id as3 m.active_sessions },
                ev0, none, Except.ok ()⟩
            else
              ⟨m, ev0, none, Except.error SessionError.CreationFailed⟩

/-- SessionManager::end_session (session_manager.rs lines 211-243): remove
the entry, set end_time, finalize the capture (on success the artifacts save
event is emitted and bytes_transferred updated; on failure status is set to
Error), then unconditionally set status to Completed (line 229), then attempt
container cleanup whenever a handle is present. -/
def SessionManager.end_session (m : SessionManager) (env : Env)
    (session_id : Nat) : StepResult :=
  match assoc_remove session_id m.active_sessions with
  | none => ⟨m, [], none, Except.error SessionError.NotFound⟩
  | some (active_session, rest) =>
    let m1 := { m with active_sessions := rest }
    let s1 := { active_session.session with end_time := some env.now }
    let save : CaptureArtifacts → Except StorageError Unit := fun _ =>
      if env.save_artifacts_ok then Except.ok ()
      else Except.error StorageError.WriteFailed
    let fin := active_session.stream_recorder.finalize_capture save env.now
    let step :=
      match fin with
      | Except.ok artifacts =>
        ({ s1 with bytes_transferred := artifacts.total_bytes },
          [Event.save_capture_artifacts artifacts.session_id])
      | Except.error _ => ({ s1 with status := SessionStatus.Error }, [])
    let s3 := { step.1 with status := SessionStatus.Completed }
    match active_session.container_handle with
    | some container_handle =>
      let ev := step.2 ++ [Event.cleanup_container container_handle.id]
      if env.cleanup_ok then ⟨m1, ev, some s3, Except.ok ()⟩
      else ⟨m1, ev, some s3, Except.error SessionError.ContainerError⟩
    | none => ⟨m1, step.2, some s3, Except.ok ()⟩

/-- Expiry test used by cleanup_expired_sessions (lines 146-151): end_time is
set and now - end_time is at least the session timeout. -/
def SessionManager.session_expired (m : SessionManager) (now : Int)
    (s : ActiveSession) : Bool :=
  match s.session.end_time with
  | some e => decide (now - e ≥ m.session_timeout)
  | none => false

/-- The for-loop at the end of cleanup_expired_sessions: end each collected
session id in turn, discarding (logging) individual errors. -/
def SessionManager.cleanup_loop :
    SessionManager → Env → List Nat → List Event → SessionManager × List Event
  | m, _, [], acc => (m, acc)
  | m, env, sid :: rest, acc =>
    let r := m.end_session env sid
    SessionManager.cleanup_loop r.state env rest (acc ++ r.events)

/-- SessionManager::cleanup_expired_sessions (lines 141-167): retain drops
every expired entry from the map, collecting their ids, and the collected ids
are then passed to end_session one by one. -/
def SessionManager.cleanup_expired_sessions (m : SessionManager) (env : Env) :
    SessionManager × List Event :=
  let expired :=
    (m.active_sessions.filter (fun p => m.session_expired env.now p.2)).map
      (fun p => p.1)
  let m1 := { m with active_sessions :=
    m.active_sessions.filter (fun p => !(m.session_expired env.now p.2)) }
  SessionManager.cleanup_loop m1 env expired []

/-- SessionManager::shutdown_all_sessions (lines 169-181): end every active
session, then clear the map. -/
def SessionManager.shutdown_all_sessions (m : SessionManager) (env : Env) :
    SessionManager × List Event :=
  let ids := m.active_sessions.map (fun p => p.1)
  let r := SessionManager.cleanup_loop m env ids []
  ({ r.1 with active_sessions := [] }, r.2)

/-! ## C2, C3, C4: session lifecycle persistence and error handling -/

/-- True exactly on save_session events. -/
def Event.is_save_session : Event → Bool
  | Event.save_session _ => true
  | _ => false

/-- Benign environment: container creation, proxy, artifact save and cleanup
all succeed. -/
def benign_env : Env where
  now := 1000
  fresh_id := 42
  create_container := Except.ok { id := "miel-http-42", tcp_socket := some 5, pty_master := none }
  proxy_ok := true
  proxy_c2s := [71, 69, 84]
  proxy_s2c := [79, 75]
  proxy_ts := [(Direction.ClientToContainer, 3), (Direction.ContainerToClient, 2)]
  pty_chunk := []
  save_artifacts_ok := true
  cleanup_ok := true

/-- A fresh session request from client 1234:55555. -/
def c2_request : SessionRequest where
  stream := some 9
  service_name := "http"
  client_addr := (1234, 55555)
  timestamp := 999

/-- Service configuration for the http honeypot service. -/
def http_config : ServiceConfig where
  name := "http"
  port := 80
  container_image := "miel-http"
  enabled := true
  header_patterns := ["GET", "POST"]
  banner_response := none

/-- The run of handle_session on an empty manager for a new client. -/
def c2_run1 : StepResult :=
  (SessionManager.new 10).handle_session benign_env c2_request http_config

/-- The subsequent end_session run for the session just created. -/
def c2_run2 : StepResult :=
  c2_run1.state.end_session benign_env 42

/-- C2 refutation: a fully successful new-session lifecycle — handle_session
completes Ok and the later end_session completes Ok — yet the persistence log
of the whole lifecycle contains no save_session call at all (the Session
record is never persisted anywhere in session_manager.rs); the only storage
call is the save_capture_artifacts issued by finalize_capture during
end_session, so the claimed "exactly one save_session preceding the artifact
save" fails on every successful run. -/
theorem c2_no_save_session_in_lifecycle :
    c2_run1.result = Except.ok () ∧
    c2_run2.result = Except.ok () ∧
    (c2_run1.events ++ c2_run2.events).filter Event.is_save_session = [] ∧
    c2_run1.events ++ c2_run2.events =
      [Event.create_container "miel-http-42",
        Event.save_capture_artifacts 42,
        Event.cleanup_container "miel-http-42"] := by
  refine ⟨?_, ?_, ?_, ?_⟩ <;> decide

/-- Environment at absolute time 1000000 with all effects succeeding. -/
def c3_env : Env where
  now := 1000000
  fresh_id := 99
  create_container := Except.error ()
  proxy_ok := true
  proxy_c2s := []
  proxy_s2c := []
  proxy_ts := []
  pty_chunk := []
  save_artifacts_ok := true
  cleanup_ok := true

/-- Session A: ended two timeouts ago (end_time = now - 340000), owning
container cA. -/
def c3_session_a : ActiveSession where
  session :=
    { id := 1
      service_name := "ssh"
      client_addr := (1, 2222)
      start_time := 650000
      end_time := some 660000
      container_id := some "cA"
      bytes_transferred := 0
      status := SessionStatus.Active }
  container_handle := some { id := "cA", tcp_socket := none, pty_master := none }
  stream_recorder := StreamRecorder.new 1 650000

/-- Session B: ended just now (end_time = now), owning container cB. -/
def c3_session_b : ActiveSession where
  session :=
    { id := 2
      service_name := "http"
      client_addr := (3, 4444)
      start_time := 999000
      end_time := some 1000000
      container_id := some "cB"
      bytes_transferred := 0
      status := SessionStatus.Active }
  container_handle := some { id := "cB", tcp_socket := none, pty_master := none }
  stream_recorder := StreamRecorder.new 2 999000

/-- Manager holding the expired session A and the fresh session B. -/
def c3_state : SessionManager where
  active_sessions := [(1, c3_session_a), (2, c3_session_b)]
  max_sessions := 10
  session_timeout := 170000

/-- C3 refutation: invoking cleanup_expired_sessions on a manager whose
session A expired long ago removes A from the active map (and leaves B
untouched), but performs no capture finalization and no container cleanup for
A: retain has already removed A before end_session runs, so end_session
returns NotFound and A's container cA and its recorder are simply dropped.
The event log of the sweep is empty. -/
theorem c3_cleanup_expired_skips_finalize_and_cleanup :
    ((c3_state.cleanup_expired_sessions c3_env).1.active_sessions.map
        (fun p => p.1) = [2]) ∧
    (c3_state.cleanup_expired_sessions c3_env).2 = [] := by
  refine ⟨?_, ?_⟩ <;> decide

/-- Environment in which the artifact save (hence finalize_capture) fails but
container cleanup succeeds. -/
def c4_env : Env where
  now := 2000
  fresh_id := 77
  create_container := Except.error ()
  proxy_ok := true
  proxy_c2s := []
  proxy_s2c := []
  proxy_ts := []
  pty_chunk := []
  save_artifacts_ok := false
  cleanup_ok := true

/-- Manager holding one active session (id 1) with container cA. -/
def c4_state : SessionManager where
  active_sessions := [(1, c3_session_a)]
  max_sessions := 10
  session_timeout := 170000

/-- C4 refutation: when finalize_capture fails inside end_session, the error
branch does set status to Error, but line 229 of session_manager.rs then
unconditionally overwrites it with Completed, so the session record observed
at drop has status Completed, not Error; container cleanup is still attempted
(the cleanup_container event for cA is emitted, and is the only event since
the failed save persists nothing). -/
theorem c4_finalize_failure_leaves_status_completed :
    ((c4_state.end_session c4_env 1).dropped.map (fun s => s.status) =
        some SessionStatus.Completed) ∧
    (c4_state.end_session c4_env 1).events = [Event.cleanup_container "cA"] ∧
    (c4_state.end_session c4_env 1).result = Except.ok () := by
  refine ⟨?_, ?_, ?_⟩ <;> decide

/-! ## C5: the max_sessions admission cap -/

/-- Updating a binding never changes the length of the association list. -/
theorem assoc_update_length (k : Nat) (v : ActiveSession) :
    ∀ l : List (Nat × ActiveSession), (assoc_update k v l).length = l.length := by
  intro l
  induction l with
  | nil => rfl
  | cons p rest ih =>
    cases p with
    | mk k' v' =>
      by_cases hk : k' = k
      · simp [assoc_update, hk]
      · simp [assoc_update, hk, ih]

/-- Inserting a binding grows the association list by at most one entry. -/
theorem assoc_insert_length_le (k : Nat) (v : ActiveSession)
    (l : List (Nat × ActiveSession)) :
    (assoc_insert k v l).length ≤ l.length + 1 := by
  unfold assoc_insert
  by_cases hmem : l.any (fun p => p.1 == k)
  · simp [hmem, assoc_update_length]
  · simp [hmem]

/-- Removing a binding yields a list exactly one entry shorter. -/
theorem assoc_remove_length (k : Nat) :
    ∀ (l : List (Nat × ActiveSession)) (v : ActiveSession)
      (rest : List (Nat × ActiveSession)),
      assoc_remove k l = some (v, rest) → rest.length + 1 = l.length := by
  intro l
  induction l with
  | nil => intro v rest h; simp [assoc_remove] at h
  | cons p tail ih =>
    intro v rest h
    cases p with
    | mk k' v' =>
      by_cases hk : k' = k
      · simp [assoc_remove, hk] at h
        simp [← h.2]
      · simp only [assoc_remove, hk, if_false] at h
        cases htail : assoc_remove k tail with
        | none => simp [htail] at h
        | some pr =>
          cases pr with
          | mk v0 rest0 =>
            simp [htail] at h
            have := ih v0 rest0 htail
            simp [← h.2, List.length_cons]
            omega

/-- end_session state: the active map never grows and the cap is unchanged. -/
theorem end_session_shrinks (m : SessionManager) (env : Env) (sid : Nat) :
    (m.end_session env sid).state.active_sessions.length ≤
        m.active_sessions.length ∧
      (m.end_session env sid).state.max_sessions = m.max_sessions := by
  unfold SessionManager.end_session
  cases hrem : assoc_remove sid m.active_sessions with
  | none => simp
  | some pr =>
    obtain ⟨v, rest⟩ := pr
    have hlen := assoc_remove_length sid m.active_sessions v rest hrem
    cases hch : v.container_handle with
    | none =>
      refine ⟨?_, ?_⟩
      · simp [hch]; omega
      · simp [hch]
    | some h =>
      by_cases hc : env.cleanup_ok
      · refine ⟨?_, ?_⟩
        · simp [hch, hc]; omega
        · simp [hch, hc]
      · refine ⟨?_, ?_⟩
        · simp [hch, hc]; omega
        · simp [hch, hc]

/-- cleanup_loop state: the active map never grows and the cap is unchanged. -/
theorem cleanup_loop_shrinks (env : Env) :
    ∀ (ids : List Nat) (m : SessionManager) (acc : List Event),
      (SessionManager.cleanup_loop m env ids acc).1.active_sessions.length ≤
          m.active_sessions.length ∧
        (SessionManager.cleanup_loop m env ids acc).1.max_sessions =
          m.max_sessions := by
  intro ids
  induction ids with
  | nil => intro m acc; simp [SessionManager.cleanup_loop]
  | cons sid rest ih =>
    intro m acc
    have hstep := end_session_shrinks m env sid
    have htail := ih (m.end_session env sid).state (acc ++ (m.end_session env sid).events)
    simp only [SessionManager.cleanup_loop]
    exact ⟨le_trans htail.1 hstep.1, htail.2.trans hstep.2⟩

/-- handle_session keeps the active count bounded by the cap. -/
theorem handle_session_length_le (m : SessionManager) (env : Env)
    (request : SessionRequest) (cfg : ServiceConfig)
    (hinv : m.active_sessions.length ≤ m.max_sessions) :
    (m.handle_session env request cfg).state.active_sessions.length ≤
        m.max_sessions ∧
      (m.handle_session env request cfg).state.max_sessions = m.max_sessions := by
  unfold SessionManager.handle_session
  cases request.stream with
  | none => exact ⟨hinv, rfl⟩
  | some s =>
    simp only
    cases m.find_session request with
    | some key =>
      simp only
      cases assoc_lookup key m.active_sessions with
      | none => exact ⟨hinv, rfl⟩
      | some active_session =>
        simp only
        cases active_session.container_handle with
        | none => exact ⟨hinv, rfl⟩
        | some handle =>
          simp only
          cases handle.tcp_socket with
          | none => exact ⟨hinv, rfl⟩
          | some sock =>
            simp only
            split
            · simpa [assoc_update_length] using hinv
            · simpa [assoc_update_length] using hinv
    | none =>
      simp only
      by_cases hfull : m.max_sessions = m.active_sessions.length
      · simp [hfull]
      · simp only [hfull, if_false]
        cases env.create_container with
        | error e => exact ⟨hinv, rfl⟩
        | ok container_handle =>
          simp only
          cases container_handle.tcp_socket with
          | none => exact ⟨hinv, rfl⟩
          | some sock =>
            simp only
            split
            · constructor
              · refine le_trans (assoc_insert_length_le _ _ _) ?_
                omega
              · rfl
            · exact ⟨hinv, rfl⟩

/-- C5: the number of active sessions never exceeds max_sessions.  Every
session manager operation preserves the bound (handle_session, end_session,
cleanup_expired_sessions, shutdown_all_sessions, each leaving the cap
itself unchanged), and at a full manager a non-merged request is rejected:
handle_session returns an error, the state is unchanged (no session added),
and no container-creation event occurs (the cap check of create_session runs
before any container is created). -/
theorem c5_active_count_bounded_by_max (m : SessionManager) (env : Env)
    (request : SessionRequest) (cfg : ServiceConfig) (sid : Nat)
    (hinv : m.active_sessions.length ≤ m.max_sessions) :
    ((m.handle_session env request cfg).state.active_sessions.length ≤
        m.max_sessions ∧
      (m.handle_session env request cfg).state.max_sessions = m.max_sessions) ∧
    ((m.end_session env sid).state.active_sessions.length ≤ m.max_sessions ∧
      (m.end_session env sid).state.max_sessions = m.max_sessions) ∧
    ((m.cleanup_expired_sessions env).1.active_sessions.length ≤
        m.max_sessions ∧
      (m.cleanup_expired_sessions env).1.max_sessions = m.max_sessions) ∧
    ((m.shutdown_all_sessions env).1.active_sessions.length ≤ m.max_sessions ∧
      (m.shutdown_all_sessions env).1.max_sessions = m.max_sessions) ∧
    (m.active_sessions.length = m.max_sessions →
      m.find_session request = none →
      (m.handle_session env request cfg).state = m ∧
        (m.handle_session env request cfg).result =
          Except.error SessionError.CreationFailed ∧
        (m.handle_session env request cfg).events = []) := by
  refine ⟨handle_session_length_le m env request cfg hinv, ?_, ?_, ?_, ?_⟩
  · have h := end_session_shrinks m env sid
    exact ⟨le_trans h.1 hinv, h.2⟩
  · have h := cleanup_loop_shrinks env
      ((m.active_sessions.filter (fun p => m.session_expired env.now p.2)).map
        (fun p => p.1))
      { m with active_sessions :=
          m.active_sessions.filter (fun p => !(m.session_expired env.now p.2)) }
      []
    unfold SessionManager.cleanup_expired_sessions
    refine ⟨le_trans h.1 ?_, h.2⟩
    exact le_trans (List.length_filter_le _ _) hinv
  · unfold SessionManager.shutdown_all_sessions
    have h := cleanup_loop_shrinks env (m.active_sessions.map (fun p => p.1)) m []
    simpa using h.2
  · intro hfull hmiss
    unfold SessionManager.handle_session
    cases request.stream with
    | none => exact ⟨rfl, rfl, rfl⟩
    | some s => simp [hmiss, hfull]

/-- Witness for c5_active_count_bounded_by_max at a concrete full manager:
with max_sessions = 0 the empty manager is already full and every request is
rejected without touching the state. -/
theorem c5_active_count_bounded_by_max_witness :
    ((SessionManager.new 0).handle_session benign_env c2_request
        http_config).state = SessionManager.new 0 ∧
    ((SessionManager.new 0).handle_session benign_env c2_request
        http_config).result = Except.error SessionError.CreationFailed ∧
    ((SessionManager.new 0).handle_session benign_env c2_request
        http_config).events = [] := by
  exact (c5_active_count_bounded_by_max (SessionManager.new 0) benign_env
    c2_request http_config 0 (by decide)).2.2.2.2 (by decide) (by decide)

/-! ## C6: proxy half-close (tcp_capture.rs, proxy_and_record) -/

/-- One iteration's observable i/o in a forwarding loop: a successful read of
a (non-empty) chunk that is then written through, a read returning 0 (EOF), a
failed read, or a failed write of the chunk just read. -/
inductive IoEvent
  | data (chunk : List Nat)
  | eof
  | readFailed
  | writeFailed (chunk : List Nat)
deriving DecidableEq, Repr

/-- Outcome of one forwarding direction: the bytes appended to its capture
buffer, the recorded chunk sizes, whether it shut down the opposite stream's
write half, and its terminal result (none while it is still blocked reading). -/
structure ForwardOutcome where
  captured : List Nat
  sizes : List Nat
  shutdown_opposite : Bool
  result : Option (Except CaptureError Unit)
deriving DecidableEq, Repr

/-- One forwarding loop of TcpCapture::proxy_and_record (lines 72-105 and the
mirrored 117-150): read; on 0 shut down the opposite writer and stop Ok; on a
read or write error stop with CaptureError::TcpStreamError without touching
the opposite writer; otherwise forward the chunk, append it to the buffer and
record its size, and continue. -/
def run_forward_loop : List IoEvent → ForwardOutcome
  | [] => { captured := [], sizes := [], shutdown_opposite := false, result := none }
  | IoEvent.data chunk :: rest =>
    let o := run_forward_loop rest
    { o with captured := chunk ++ o.captured, sizes := chunk.length :: o.sizes }
  | IoEvent.eof :: _ =>
    { captured := [], sizes := [], shutdown_opposite := true,
      result := some (Except.ok ()) }
  | IoEvent.readFailed :: _ =>
    { captured := [], sizes := [], shutdown_opposite := false,
      result := some (Except.error CaptureError.TcpStreamError) }
  | IoEvent.writeFailed _ :: _ =>
    { captured := [], sizes := [], shutdown_opposite := false,
      result := some (Except.error CaptureError.TcpStreamError) }

/-- TcpCapture::proxy_and_record (lines 52-160): run both forwarding
directions over their i/o traces and join them; the call returns exactly when
both loops have terminal results, Ok when both ended Ok, and the first
TcpStreamError otherwise. -/
def TcpCapture.proxy_and_record (client_events container_events : List IoEvent) :
    ForwardOutcome × ForwardOutcome × Option (Except CaptureError Unit) :=
  let c := run_forward_loop client_events
  let s := run_forward_loop container_events
  (c, s,
    match c.result, s.result with
    | some (Except.ok ()), some (Except.ok ()) => some (Except.ok ())
    | some (Except.error e), some _ => some (Except.error e)
    | some (Except.ok ()), some (Except.error e) => some (Except.error e)
    | _, _ => none)

/-- TCP half-close semantics: the peer whose incoming write half was shut
down observes EOF on its read side once the buffered bytes are drained. -/
def opposite_peer_observes_eof (o : ForwardOutcome) : Prop :=
  o.shutdown_opposite = true

/-- Forwarding data chunks leaves the loop's termination behaviour to the
rest of its trace. -/
theorem run_forward_loop_append_data (chunks : List (List Nat))
    (rest : List IoEvent) :
    (run_forward_loop (chunks.map IoEvent.data ++ rest)).shutdown_opposite =
        (run_forward_loop rest).shutdown_opposite ∧
      (run_forward_loop (chunks.map IoEvent.data ++ rest)).result =
        (run_forward_loop rest).result := by
  induction chunks with
  | nil => exact ⟨rfl, rfl⟩
  | cons c cs ih => simpa [run_forward_loop] using ih

/-- C6: when one peer of proxy_and_record reaches EOF (its read returns 0)
after any number of forwarded chunks, that forwarding loop shuts down the
write half of the opposite stream — so the opposite peer observes EOF on its
read side — and terminates Ok, and proxy_and_record returns once both
directions have completed, with the joined Ok result. -/
theorem c6_half_close_and_completion (cChunks sChunks : List (List Nat))
    (cRest sRest : List IoEvent)
    (_hc : ∀ ch ∈ cChunks, ch ≠ []) (_hs : ∀ ch ∈ sChunks, ch ≠ []) :
    (run_forward_loop (cChunks.map IoEvent.data ++ IoEvent.eof :: cRest)).shutdown_opposite
        = true ∧
    opposite_peer_observes_eof
        (run_forward_loop (cChunks.map IoEvent.data ++ IoEvent.eof :: cRest)) ∧
    (run_forward_loop (cChunks.map IoEvent.data ++ IoEvent.eof :: cRest)).result
        = some (Except.ok ()) ∧
    opposite_peer_observes_eof
        (run_forward_loop (sChunks.map IoEvent.data ++ IoEvent.eof :: sRest)) ∧
    (run_forward_loop (sChunks.map IoEvent.data ++ IoEvent.eof :: sRest)).result
        = some (Except.ok ()) ∧
    (TcpCapture.proxy_and_record
        (cChunks.map IoEvent.data ++ IoEvent.eof :: cRest)
        (sChunks.map IoEvent.data ++ IoEvent.eof :: sRest)).2.2
        = some (Except.ok ()) := by
  have hcl := run_forward_loop_append_data cChunks (IoEvent.eof :: cRest)
  have hsl := run_forward_loop_append_data sChunks (IoEvent.eof :: sRest)
  have hc1 : (run_forward_loop
      (cChunks.map IoEvent.data ++ IoEvent.eof :: cRest)).shutdown_opposite = true := by
    rw [hcl.1]; rfl
  have hc2 : (run_forward_loop
      (cChunks.map IoEvent.data ++ IoEvent.eof :: cRest)).result
      = some (Except.ok ()) := by
    rw [hcl.2]; rfl
  have hs1 : (run_forward_loop
      (sChunks.map IoEvent.data ++ IoEvent.eof :: sRest)).shutdown_opposite = true := by
    rw [hsl.1]; rfl
  have hs2 : (run_forward_loop
      (sChunks.map IoEvent.data ++ IoEvent.eof :: sRest)).result
      = some (Except.ok ()) := by
    rw [hsl.2]; rfl
  refine ⟨hc1, hc1, hc2, hs1, hs2, ?_⟩
  simp only [TcpCapture.proxy_and_record, hc2, hs2]

/-- Witness for c6_half_close_and_completion: a client that sends one chunk
and then EOF against a container that answers one chunk and then EOF. -/
theorem c6_half_close_and_completion_witness :
    (∀ ch ∈ [[71, 69, 84]], ch ≠ ([] : List Nat)) ∧
    (∀ ch ∈ [[79, 75]], ch ≠ ([] : List Nat)) ∧
    (run_forward_loop ([[71, 69, 84]].map IoEvent.data
        ++ IoEvent.eof :: [])).shutdown_opposite = true ∧
    (TcpCapture.proxy_and_record
        ([[71, 69, 84]].map IoEvent.data ++ IoEvent.eof :: [])
        ([[79, 75]].map IoEvent.data ++ IoEvent.eof :: [])).2.2
        = some (Except.ok ()) := by
  have h := c6_half_close_and_completion [[71, 69, 84]] [[79, 75]] [] []
    (by decide) (by decide)
  exact ⟨by decide, by decide, h.1, h.2.2.2.2.2⟩

/-! ## C7: activity-log parsing (stdio_capture.rs, parse_activity_log_line) -/

/-- Rust char::is_whitespace: the Unicode White_Space code points. -/
def rust_is_whitespace (c : Char) : Bool :=
  let v := c.toNat
  v = 0x09 || v = 0x0A || v = 0x0B || v = 0x0C || v = 0x0D || v = 0x20 ||
    v = 0x85 || v = 0xA0 || v = 0x1680 || (0x2000 ≤ v && v ≤ 0x200A) ||
    v = 0x2028 || v = 0x2029 || v = 0x202F || v = 0x205F || v = 0x3000

/-- Rust str::trim_start. -/
def trim_start (l : List Char) : List Char :=
  l.dropWhile rust_is_whitespace

/-- Rust str::find(']') followed by slicing: the text before the first ']'
and the text after it, or none when the string has no ']'. -/
def split_at_rbracket : List Char → Option (List Char × List Char)
  | [] => none
  | c :: rest =>
    if c = ']' then some ([], rest)
    else (split_at_rbracket rest).map (fun p => (c :: p.1, p.2))

/-- UTF-8 encoding of one char (str::as_bytes acts on this encoding). -/
def utf8_encode_char (c : Char) : List Nat :=
  let v := c.toNat
  if v < 128 then [v]
  else if v < 2048 then [192 + v / 64, 128 + v % 64]
  else if v < 65536 then [224 + v / 4096, 128 + (v / 64) % 64, 128 + v % 64]
  else [240 + v / 262144, 128 + (v / 4096) % 64, 128 + (v / 64) % 64, 128 + v % 64]

/-- UTF-8 encoding of a char sequence. -/
def utf8_encode (l : List Char) : List Nat :=
  (l.map utf8_encode_char).flatten

/-- The stream tag comparison of stdio_capture.rs lines 171-176. -/
def stream_of_tag (tag : List Char) : Option StdioStream :=
  if tag = "STDIN".toList then some StdioStream.Stdin
  else if tag = "STDOUT".toList then some StdioStream.Stdout
  else if tag = "STDERR".toList then some StdioStream.Stderr
  else none

/-- The append performed for a matched line (lines 178-187): content bytes
plus a trailing newline go to the matched stream's buffer, and one
(stream, len) entry is pushed with len the appended byte count. -/
def StdioCapture.append_stream (cap : StdioCapture) (s : StdioStream)
    (content : List Char) : StdioCapture :=
  let bytes := utf8_encode content ++ [10]
  let n := bytes.length
  match s with
  | StdioStream.Stdin =>
    { cap with stdin_data := cap.stdin_data ++ bytes
               timestamps := cap.timestamps ++ [(s, n)] }
  | StdioStream.Stdout =>
    { cap with stdout_data := cap.stdout_data ++ bytes
               timestamps := cap.timestamps ++ [(s, n)] }
  | StdioStream.Stderr =>
    { cap with stderr_data := cap.stderr_data ++ bytes
               timestamps := cap.timestamps ++ [(s, n)] }

/-- StdioCapture::parse_activity_log_line (stdio_capture.rs lines 114-221),
mirrored step for step: skip lines starting with header text, strip the
leading bracketed segment at the first ']' (there is no validation of its
contents), trim, require a bracketed service tag, trim, require a bracketed
stream tag, take the remainder with leading whitespace trimmed as content,
and dispatch on the stream tag; every non-matching outcome leaves the
buffers untouched. -/
def StdioCapture.parse_activity_log_line (cap : StdioCapture)
    (line : List Char) : StdioCapture :=
  if line.take 4 = "=== ".toList then cap
  else
    match split_at_rbracket line with
    | none => cap
    | some (_ts, after_ts) =>
      let rest := trim_start after_ts
      match rest with
      | c1 :: r1 =>
        if c1 = '[' then
          match split_at_rbracket r1 with
          | none => cap
          | some (_service, r2) =>
            let rest2 := trim_start r2
            match rest2 with
            | c2 :: r3 =>
              if c2 = '[' then
                match split_at_rbracket r3 with
                | none => cap
                | some (stream_tag, r4) =>
                  let content := trim_start r4
                  match stream_of_tag stream_tag with
                  | some s => cap.append_stream s content
                  | none => cap
              else cap
            | [] => cap
        else cap
      | [] => cap

/-- StdioCapture::capture_activity_log_from_path: parse each line of the log
in order (file i/o dropped; the file is given as its line list). -/
def StdioCapture.capture_activity_log (cap : StdioCapture)
    (lines : List (List Char)) : StdioCapture :=
  lines.foldl StdioCapture.parse_activity_log_line cap

/-- A bracketed tag: an opening '[', the tag text up to the first ']', and
the remainder. -/
def expect_tag : List Char → Option (List Char × List Char)
  | c :: r => if c = '[' then split_at_rbracket r else none
  | [] => none

/-- The shape of line the parser actually accepts, written as a pipeline:
not a header line; any segment up to a first ']' (the timestamp slot, with
arbitrary contents); optional whitespace; a bracketed service tag; optional
whitespace; a bracketed stream tag naming STDIN, STDOUT or STDERR; and the
remainder with leading whitespace stripped as content. -/
def lenient_shape (line : List Char) : Option (StdioStream × List Char) :=
  if line.take 4 = "=== ".toList then none
  else
    (split_at_rbracket line).bind (fun p =>
      (expect_tag (trim_start p.2)).bind (fun q =>
        (expect_tag (trim_start q.2)).bind (fun r =>
          (stream_of_tag r.1).map (fun s => (s, trim_start r.2)))))

/-- The line shape stated by the specification: a bracketed timestamp, one
space, a bracketed service, one space, a bracketed stream tag in the three
stream names, one space, then the content, with the bracketed segments free
of ']'. -/
def spec_line_shape (line : List Char) : Option (StdioStream × List Char) :=
  match line with
  | c0 :: r0 =>
    if c0 = '[' then
      (split_at_rbracket r0).bind (fun p =>
        match p.2 with
        | ' ' :: '[' :: r1 =>
          (split_at_rbracket r1).bind (fun q =>
            match q.2 with
            | ' ' :: '[' :: r2 =>
              (split_at_rbracket r2).bind (fun r =>
                match r.2 with
                | ' ' :: content =>
                  (stream_of_tag r.1).map (fun s => (s, content))
                | _ => none)
            | _ => none)
        | _ => none)
    else none
  | [] => none

/-- The parser computes exactly the lenient shape: its result is the
append dictated by lenient_shape, or the unchanged state when the lenient
shape rejects the line. -/
theorem parse_activity_log_line_eq (cap : StdioCapture) (line : List Char) :
    cap.parse_activity_log_line line =
      (match lenient_shape line with
        | some (s, content) => cap.append_stream s content
        | none => cap) := by
  unfold StdioCapture.parse_activity_log_line lenient_shape
  by_cases hhd : line.take 4 = "=== ".toList
  · simp [hhd]
  · simp only [hhd, if_false]
    cases h0 : split_at_rbracket line with
    | none => simp
    | some p =>
      obtain ⟨ts, r0⟩ := p
      simp only [Option.some_bind]
      cases hr : trim_start r0 with
      | nil => simp [expect_tag]
      | cons c1 r1 =>
        by_cases hc1 : c1 = '['
        · subst hc1
          simp only [expect_tag, if_pos, Option.some_bind]
          cases h1 : split_at_rbracket r1 with
          | none => simp
          | some q =>
            obtain ⟨svc, r2⟩ := q
            simp only [Option.some_bind]
            cases hr2 : trim_start r2 with
            | nil => simp [expect_tag]
            | cons c2 r3 =>
              by_cases hc2 : c2 = '['
              · subst hc2
                simp only [expect_tag, if_pos, Option.some_bind]
                cases h2 : split_at_rbracket r3 with
                | none => simp
                | some t =>
                  obtain ⟨tag, r4⟩ := t
                  simp only [Option.some_bind]
                  cases hs : stream_of_tag tag with
                  | none => simp
                  | some s => simp
              · simp [expect_tag, hc2]
        · simp [expect_tag, hc1]

/-- C7 counterexample.  First line: no space separates the bracketed
segments, so it does not match the specified shape, yet the parser appends
to the stdin buffer.  Second line: it matches the specified shape with
content beginning in a space, yet the parser strips that leading whitespace
before appending, so the appended bytes differ from content plus newline. -/
theorem c7_counterexample_strict_shape :
    spec_line_shape ("[t][SSH][STDIN]x".toList) = none ∧
    (StdioCapture.new.parse_activity_log_line
        ("[t][SSH][STDIN]x".toList)).stdin_data = [120, 10] ∧
    StdioCapture.new.parse_activity_log_line ("[t][SSH][STDIN]x".toList) ≠
      StdioCapture.new ∧
    spec_line_shape
        ("[2025-01-01 00:00:00 UTC] [SSH] [STDOUT]  padded".toList) =
      some (StdioStream.Stdout, " padded".toList) ∧
    (StdioCapture.new.parse_activity_log_line
        ("[2025-01-01 00:00:00 UTC] [SSH] [STDOUT]  padded".toList)).stdout_data =
      utf8_encode ("padded".toList) ++ [10] ∧
    utf8_encode ("padded".toList) ++ [10] ≠
      utf8_encode (" padded".toList) ++ [10] := by
  refine ⟨?_, ?_, ?_, ?_, ?_, ?_⟩ <;> decide

/-- C7 as amended: a line the lenient shape accepts — arbitrary text up to a
first ']' in the timestamp slot, optional whitespace around the bracketed
service and stream tags, stream tag in STDIN/STDOUT/STDERR — has its content
(leading whitespace stripped) plus a newline appended to that stream's
buffer, with exactly one (stream, len) timestamp entry pushed and the other
two buffers unchanged; every line the lenient shape rejects, including
header lines beginning with the four header characters and lines whose
stream tag is not one of the three stream names, leaves all three buffers
and the timestamp series unchanged. -/
theorem c7_parse_line_characterized (cap : StdioCapture) (line : List Char) :
    (∀ s content, lenient_shape line = some (s, content) →
      cap.parse_activity_log_line line = cap.append_stream s content) ∧
    (lenient_shape line = none → cap.parse_activity_log_line line = cap) := by
  constructor
  · intro s content h
    rw [parse_activity_log_line_eq, h]
  · intro h
    rw [parse_activity_log_line_eq, h]

/-- Witness for c7_parse_line_characterized: a well-formed STDIN line is
appended with a newline and one timestamp entry; a header line is skipped. -/
theorem c7_parse_line_characterized_witness :
    lenient_shape ("[2025-01-01 00:00:00 UTC] [SSH] [STDIN] ls".toList) =
      some (StdioStream.Stdin, "ls".toList) ∧
    StdioCapture.new.parse_activity_log_line
        ("[2025-01-01 00:00:00 UTC] [SSH] [STDIN] ls".toList) =
      StdioCapture.new.append_stream StdioStream.Stdin ("ls".toList) ∧
    lenient_shape ("=== Container Activity Log ===".toList) = none ∧
    StdioCapture.new.parse_activity_log_line
        ("=== Container Activity Log ===".toList) = StdioCapture.new := by
  refine ⟨by decide, ?_, by decide, ?_⟩
  · exact (c7_parse_line_characterized StdioCapture.new
      ("[2025-01-01 00:00:00 UTC] [SSH] [STDIN] ls".toList)).1
      StdioStream.Stdin ("ls".toList) (by decide)
  · exact (c7_parse_line_characterized StdioCapture.new
      ("=== Container Activity Log ===".toList)).2 (by decide)

/-! ## C8, C10: the two storage backends -/

/-- A stored session row: id, start_time and optional end_time.  Timestamps
stand for the RFC3339 strings both backends store; their order agrees with
the chronological order the backends compare by. -/
structure StoredSession where
  sid : Nat
  start_time : Int
  end_time : Option Int
deriving DecidableEq, Repr

/-- COALESCE(end_time, start_time), the timestamp both backends test against
the cleanup cutoff. -/
def StoredSession.coalesce_time (s : StoredSession) : Int :=
  s.end_time.getD s.start_time

/-- DatabaseStorage state (database_storage.rs): the sessions table, the
interactions table in autoincrement (insertion) order, and the artifacts
table; blobs are byte lists keyed by session id. -/
structure DatabaseStorage where
  sessions : List StoredSession
  interactions : List (Nat × List Nat)
  artifacts : List (Nat × List Nat)
deriving DecidableEq, Repr

/-- DatabaseStorage::save_interaction: INSERT a new row, autoincrement id. -/
def DatabaseStorage.save_interaction (db : DatabaseStorage) (sid : Nat)
    (data : List Nat) : DatabaseStorage :=
  { db with interactions := db.interactions ++ [(sid, data)] }

/-- DatabaseStorage::get_session_data (lines 303-328): SELECT the session's
interaction rows ordered by id and concatenate them; with no rows the result
is Ok with the empty byte vector. -/
def DatabaseStorage.get_session_data (db : DatabaseStorage) (sid : Nat) :
    Except StorageError (List Nat) :=
  Except.ok
    (((db.interactions.filter (fun r => r.1 == sid)).map (fun r => r.2)).flatten)

/-- DatabaseStorage::cleanup_old_sessions (lines 330-352): DELETE FROM
sessions WHERE COALESCE(end_time, start_time) < cutoff; the ON DELETE
CASCADE foreign keys remove the deleted sessions' interaction and artifact
rows; rows_affected counts the deleted sessions. -/
def DatabaseStorage.cleanup_old_sessions (db : DatabaseStorage) (cutoff : Int) :
    DatabaseStorage × Nat :=
  let deleted := db.sessions.filter (fun s => decide (s.coalesce_time < cutoff))
  let del : Nat → Bool := fun k => deleted.any (fun s => s.sid == k)
  ({ sessions :=
       db.sessions.filter (fun s => !(decide (s.coalesce_time < cutoff)))
     interactions := db.interactions.filter (fun r => !(del r.1))
     artifacts := db.artifacts.filter (fun r => !(del r.1)) },
   deleted.length)

/-- FileStorage state (file_storage.rs): the parseable session files of the
sessions directory, the per-session interaction files, and the per-session
artifact directories. -/
structure FileStorage where
  session_files : List StoredSession
  interaction_files : List (Nat × List Nat)
  artifact_dirs : List Nat
deriving DecidableEq, Repr

/-- FileStorage::save_interaction: open with create and append, then write. -/
def FileStorage.save_interaction (fs : FileStorage) (sid : Nat)
    (data : List Nat) : FileStorage :=
  if fs.interaction_files.any (fun f => f.1 == sid) then
    { fs with interaction_files :=
        fs.interaction_files.map (fun f =>
          if f.1 == sid then (f.1, f.2 ++ data) else f) }
  else
    { fs with interaction_files := fs.interaction_files ++ [(sid, data)] }

/-- FileStorage::get_session_data (lines 143-149): read the session's
interaction file whole; when the file does not exist, File::open fails and
the error is mapped to StorageError::ReadFailed. -/
def FileStorage.get_session_data (fs : FileStorage) (sid : Nat) :
    Except StorageError (List Nat) :=
  match fs.interaction_files.find? (fun f => f.1 == sid) with
  | some f => Except.ok f.2
  | none => Except.error StorageError.ReadFailed

/-- The directory loop of FileStorage::cleanup_old_sessions (lines 151-172):
for each parseable session file in the snapshot, when its coalesced time is
before the cutoff, remove the session file, the interaction file and the
artifact directory of that session id and count it. -/
def FileStorage.cleanup_loop :
    List StoredSession → Int → FileStorage → Nat → FileStorage × Nat
  | [], _, fs, removed => (fs, removed)
  | e :: rest, cutoff, fs, removed =>
    if e.coalesce_time < cutoff then
      FileStorage.cleanup_loop rest cutoff
        { session_files := fs.session_files.filter (fun s => !(e.sid == s.sid))
          interaction_files :=
            fs.interaction_files.filter (fun f => !(e.sid == f.1))
          artifact_dirs := fs.artifact_dirs.filter (fun d => !(e.sid == d)) }
        (removed + 1)
    else FileStorage.cleanup_loop rest cutoff fs removed

/-- FileStorage::cleanup_old_sessions: run the loop over the directory
snapshot starting with zero removed. -/
def FileStorage.cleanup_old_sessions (fs : FileStorage) (cutoff : Int) :
    FileStorage × Nat :=
  FileStorage.cleanup_loop fs.session_files cutoff fs 0

/-- The ids of the stored sessions a cutoff deletes. -/
def expired_sids (l : List StoredSession) (cutoff : Int) : List Nat :=
  (l.filter (fun s => decide (s.coalesce_time < cutoff))).map
    (fun s => s.sid)

/-- Whether some session of the list is expired and carries the given id. -/
def expired_in (l : List StoredSession) (cutoff : Int) (k : Nat) : Bool :=
  l.any (fun e => decide (e.coalesce_time < cutoff) && e.sid == k)

/-- Filtering then testing any is testing any of the conjunction. -/
theorem list_any_filter {α : Type} (p q : α → Bool) (l : List α) :
    (l.filter p).any q = l.any (fun a => p a && q a) := by
  induction l with
  | nil => rfl
  | cons a t ih =>
    by_cases h : p a = true
    · by_cases hq : q a = true <;> simp [h, hq, ih]
    · simp only [Bool.not_eq_true] at h
      simp [h, ih]

/-- Closed form of the file-backend cleanup loop: every family of files is
filtered by non-membership in the expired set of the snapshot, and the
counter grows by the number of expired snapshot entries. -/
theorem fs_cleanup_loop_eq (cutoff : Int) :
    ∀ (l : List StoredSession) (fs : FileStorage) (removed : Nat),
      (FileStorage.cleanup_loop l cutoff fs removed).1.session_files =
          fs.session_files.filter (fun s => !(expired_in l cutoff s.sid)) ∧
        (FileStorage.cleanup_loop l cutoff fs removed).1.interaction_files =
          fs.interaction_files.filter (fun f => !(expired_in l cutoff f.1)) ∧
        (FileStorage.cleanup_loop l cutoff fs removed).1.artifact_dirs =
          fs.artifact_dirs.filter (fun d => !(expired_in l cutoff d)) ∧
        (FileStorage.cleanup_loop l cutoff fs removed).2 =
          removed +
            (l.filter (fun s => decide (s.coalesce_time < cutoff))).length := by
  intro l
  induction l with
  | nil =>
    intro fs removed
    simp [FileStorage.cleanup_loop, expired_in]
  | cons e rest ih =>
    intro fs removed
    by_cases he : e.coalesce_time < cutoff
    · have ih' := ih
        { session_files := fs.session_files.filter (fun s => !(e.sid == s.sid))
          interaction_files :=
            fs.interaction_files.filter (fun f => !(e.sid == f.1))
          artifact_dirs := fs.artifact_dirs.filter (fun d => !(e.sid == d)) }
        (removed + 1)
      simp only [FileStorage.cleanup_loop, if_pos he] at *
      refine ⟨?_, ?_, ?_, ?_⟩
      · rw [ih'.1, List.filter_filter]
        refine List.filter_congr ?_
        intro s _
        simp [expired_in, he, Bool.and_comm]
      · rw [ih'.2.1, List.filter_filter]
        refine List.filter_congr ?_
        intro f _
        simp [expired_in, he, Bool.and_comm]
      · rw [ih'.2.2.1, List.filter_filter]
        refine List.filter_congr ?_
        intro d _
        simp [expired_in, he, Bool.and_comm]
      · rw [ih'.2.2.2]
        simp [he]
        omega
    · have ih' := ih fs removed
      simp only [FileStorage.cleanup_loop, if_neg he] at *
      refine ⟨?_, ?_, ?_, ?_⟩
      · rw [ih'.1]
        refine List.filter_congr ?_
        intro s _
        simp [expired_in, he]
      · rw [ih'.2.1]
        refine List.filter_congr ?_
        intro f _
        simp [expired_in, he]
      · rw [ih'.2.2.1]
        refine List.filter_congr ?_
        intro d _
        simp [expired_in, he]
      · rw [ih'.2.2.2]
        simp [he]

/-- Testing any over a mapped list is testing the composed predicate. -/
theorem list_any_map {α β : Type} (f : α → β) (p : β → Bool) (l : List α) :
    (l.map f).any p = l.any (fun a => p (f a)) := by
  induction l with
  | nil => rfl
  | cons a t ih => simp [List.map_cons, List.any_cons, ih]

/-- Membership in the expired-id list is the expired_in test. -/
theorem expired_sids_any (l : List StoredSession) (cutoff : Int) (k : Nat) :
    (expired_sids l cutoff).any (fun x => x == k) = expired_in l cutoff k := by
  unfold expired_sids expired_in
  rw [list_any_map, list_any_filter]

/-- With unique session ids, a stored session is in the expired set exactly
when its own coalesced time is before the cutoff. -/
theorem expired_in_of_nodup (l : List StoredSession) (cutoff : Int)
    (hnd : (l.map (fun s => s.sid)).Nodup) (s : StoredSession) (hs : s ∈ l) :
    expired_in l cutoff s.sid = decide (s.coalesce_time < cutoff) := by
  by_cases hc : s.coalesce_time < cutoff
  · rw [decide_eq_true hc]
    refine List.any_eq_true.2 ⟨s, hs, ?_⟩
    simp [hc]
  · rw [decide_eq_false hc]
    refine List.any_eq_false.2 ?_
    intro e he
    intro hcontra
    simp only [Bool.and_eq_true, decide_eq_true_eq, beq_iff_eq] at hcontra
    have : e = s := List.inj_on_of_nodup_map hnd he hs hcontra.2
    exact hc (this ▸ hcontra.1)

/-- C8: in both storage backends, cleanup_old_sessions deletes exactly the
stored sessions whose COALESCE(end_time, start_time) is strictly before the
cutoff, cascades to exactly those sessions' interaction data and capture
artifacts, leaves every other session and dependent intact, and returns the
number of sessions removed.  The file backend needs the (always true on
disk) uniqueness of session file names. -/
theorem c8_cleanup_old_sessions_exact (db : DatabaseStorage) (fs : FileStorage)
    (cutoff : Int)
    (hfs : (fs.session_files.map (fun s => s.sid)).Nodup) :
    ((db.cleanup_old_sessions cutoff).1.sessions =
        db.sessions.filter (fun s => !(decide (s.coalesce_time < cutoff)))) ∧
    ((db.cleanup_old_sessions cutoff).1.interactions =
        db.interactions.filter (fun r =>
          !((expired_sids db.sessions cutoff).any (fun k => k == r.1)))) ∧
    ((db.cleanup_old_sessions cutoff).1.artifacts =
        db.artifacts.filter (fun a =>
          !((expired_sids db.sessions cutoff).any (fun k => k == a.1)))) ∧
    ((db.cleanup_old_sessions cutoff).2 =
        (expired_sids db.sessions cutoff).length) ∧
    ((fs.cleanup_old_sessions cutoff).1.session_files =
        fs.session_files.filter (fun s => !(decide (s.coalesce_time < cutoff)))) ∧
    ((fs.cleanup_old_sessions cutoff).1.interaction_files =
        fs.interaction_files.filter (fun f =>
          !((expired_sids fs.session_files cutoff).any (fun k => k == f.1)))) ∧
    ((fs.cleanup_old_sessions cutoff).1.artifact_dirs =
        fs.artifact_dirs.filter (fun d =>
          !((expired_sids fs.session_files cutoff).any (fun k => k == d)))) ∧
    ((fs.cleanup_old_sessions cutoff).2 =
        (expired_sids fs.session_files cutoff).length) := by
  have hloop := fs_cleanup_loop_eq cutoff fs.session_files fs 0
  refine ⟨rfl, ?_, ?_, ?_, ?_, ?_, ?_, ?_⟩
  · refine List.filter_congr ?_
    intro r _
    simp only [expired_sids_any, expired_in, list_any_filter]
  · refine List.filter_congr ?_
    intro a _
    simp only [expired_sids_any, expired_in, list_any_filter]
  · unfold DatabaseStorage.cleanup_old_sessions expired_sids
    simp
  · unfold FileStorage.cleanup_old_sessions
    rw [hloop.1]
    refine List.filter_congr ?_
    intro s hs
    rw [expired_in_of_nodup fs.session_files cutoff hfs s hs]
  · unfold FileStorage.cleanup_old_sessions
    rw [hloop.2.1]
    refine List.filter_congr ?_
    intro f _
    rw [expired_sids_any]
  · unfold FileStorage.cleanup_old_sessions
    rw [hloop.2.2.1]
    refine List.filter_congr ?_
    intro d _
    rw [expired_sids_any]
  · unfold FileStorage.cleanup_old_sessions
    rw [hloop.2.2.2]
    unfold expired_sids
    simp

/-- Sample database state: session 1 ended at 20, session 2 started at 100
and never ended; each owns one interaction row and one artifacts row. -/
def c8_db_sample : DatabaseStorage where
  sessions := [{ sid := 1, start_time := 10, end_time := some 20 },
    { sid := 2, start_time := 100, end_time := none }]
  interactions := [(1, [5]), (2, [6])]
  artifacts := [(1, [7]), (2, [8])]

/-- Sample filesystem state mirroring c8_db_sample. -/
def c8_fs_sample : FileStorage where
  session_files := [{ sid := 1, start_time := 10, end_time := some 20 },
    { sid := 2, start_time := 100, end_time := none }]
  interaction_files := [(1, [5]), (2, [6])]
  artifact_dirs := [1, 2]

/-- Witness for c8_cleanup_old_sessions_exact: at cutoff 50 both backends
delete exactly session 1 with its dependents, keep session 2 whole, and
report one removal. -/
theorem c8_cleanup_old_sessions_exact_witness :
    (c8_fs_sample.cleanup_old_sessions 50).1.session_files =
      c8_fs_sample.session_files.filter
        (fun s => !(decide (s.coalesce_time < 50))) ∧
    (c8_db_sample.cleanup_old_sessions 50).1.sessions =
      [{ sid := 2, start_time := 100, end_time := none }] ∧
    (c8_fs_sample.cleanup_old_sessions 50).1.interaction_files = [(2, [6])] ∧
    (c8_fs_sample.cleanup_old_sessions 50).1.artifact_dirs = [2] ∧
    (c8_db_sample.cleanup_old_sessions 50).2 = 1 ∧
    (c8_fs_sample.cleanup_old_sessions 50).2 = 1 := by
  have h := c8_cleanup_old_sessions_exact c8_db_sample c8_fs_sample 50 (by decide)
  exact ⟨h.2.2.2.2.1, by decide, by decide, by decide, by decide, by decide⟩

/-! ## C9: service detection (network/service_detector.rs) -/

/-- Network errors (error_handling/types.rs, NetworkError; payloads dropped). -/
inductive NetworkError
  | BindError
  | ChannelFailed
  | SockError
  | ConnectionFailed
  | ServiceDetectionFailed
  | BindFail
deriving DecidableEq, Repr

/-- A sniffing pattern entry (network/service_pattern.rs). -/
structure ServicePattern where
  service_name : String
  port : Nat
  header_patterns : List String
  banner_patterns : List String
deriving DecidableEq, Repr

/-- The service detector: a map from service name to its patterns. -/
structure ServiceDetector where
  service_patterns : List (String × List ServicePattern)
deriving DecidableEq, Repr

/-- ServiceDetector::new (service_detector.rs lines 13-18): evaluates
services.len() for nothing and returns an empty pattern map, discarding the
supplied configurations. -/
def ServiceDetector.new (_services : List ServiceConfig) : ServiceDetector :=
  { service_patterns := [] }

/-- ServiceDetector::detect_service (service_detector.rs lines 20-26): the
body ignores the connection's peeked bytes and the accept port and returns
Ok with the literal string Ok. -/
def ServiceDetector.detect_service (_d : ServiceDetector)
    (_peeked : List Nat) (_port : Nat) : Except NetworkError String :=
  Except.ok "Ok"

/-- C9 refutation: service detection is an unimplemented stub.  For the
configured http service (header patterns GET and POST, port 80) and a peeked
client prefix GET followed by a space and slash on accept port 80 — where the
claim requires the detector to return http — the detector built from that
configuration holds no patterns at all and returns the constant string Ok,
which names no configured service; indeed every detector output on every
input is that same constant. -/
theorem c9_detect_service_stub :
    (ServiceDetector.new [http_config]).service_patterns = [] ∧
    (ServiceDetector.new [http_config]).detect_service
        [71, 69, 84, 32, 47] 80 = Except.ok "Ok" ∧
    "Ok" ≠ http_config.name ∧
    (∀ (d : ServiceDetector) (peeked : List Nat) (port : Nat),
      d.detect_service peeked port = Except.ok "Ok") := by
  exact ⟨rfl, rfl, by decide, fun _ _ _ => rfl⟩

/-! ## C10: get_session_data divergence between the two backends -/

/-- C10: for a session id for which save_interaction was never called — so
the database holds no interaction row and the filesystem holds no
interaction file for that id — the two backends disagree at the public
interface: DatabaseStorage::get_session_data returns Ok with the empty byte
vector, while FileStorage::get_session_data fails with
StorageError::ReadFailed because File::open finds no file. -/
theorem c10_get_session_data_divergence (db : DatabaseStorage)
    (fs : FileStorage) (sid : Nat)
    (hdb : ∀ r ∈ db.interactions, r.1 ≠ sid)
    (hfs : ∀ f ∈ fs.interaction_files, f.1 ≠ sid) :
    db.get_session_data sid = Except.ok [] ∧
    fs.get_session_data sid = Except.error StorageError.ReadFailed := by
  constructor
  · unfold DatabaseStorage.get_session_data
    have hnil : db.interactions.filter (fun r => r.1 == sid) = [] := by
      refine List.filter_eq_nil_iff.2 ?_
      intro r hr
      simpa using hdb r hr
    rw [hnil]
    rfl
  · unfold FileStorage.get_session_data
    have hnone : fs.interaction_files.find? (fun f => f.1 == sid) = none := by
      refine List.find?_eq_none.2 ?_
      intro f hf
      simpa using hfs f hf
    rw [hnone]

/-- Witness for c10_get_session_data_divergence: backends holding data only
for session 1 disagree on the never-saved session 3. -/
theorem c10_get_session_data_divergence_witness :
    ({ sessions := [], interactions := [(1, [9])], artifacts := [] }
        : DatabaseStorage).get_session_data 3 = Except.ok [] ∧
    ({ session_files := [], interaction_files := [(1, [9])],
        artifact_dirs := [] } : FileStorage).get_session_data 3 =
      Except.error StorageError.ReadFailed := by
  exact c10_get_session_data_divergence
    { sessions := [], interactions := [(1, [9])], artifacts := [] }
    { session_files := [], interaction_files := [(1, [9])], artifact_dirs := [] }
    3 (by decide) (by decide)
